import Mathlib

/-!
Shallow embedding of the iqs231 driver (src/lib.rs, src/registers.rs,
src/device.rs): the register address space, the bitfield codecs, the
threshold transforms, and the device facade operations, each translated
from the Rust source.  Machine bytes are modelled as `Nat` with `% 256`
where the Rust code truncates to `u8`; fallible operations return
`Except`; the I2C bus is a pure stub (`SimBus`) and every facade
operation also returns the list of bus transactions it issued.
-/

namespace Iqs231

/-- Error enum from src/lib.rs, parameterized by the transport error type. -/
inductive Error (E : Type) where
  | IoError (e : E)
  | UnknownSoftwareVersion (b : Nat)
  | IncorrectProductNumber (b : Nat)
  | InvalidRegister
  | RegisterNotWritable
  | ShutdownCommandNotAllowed
  | TouchThresholdOutOfRange
  deriving DecidableEq, Repr

/-- Register enum from src/registers.rs (addresses 0x00-0x29, contiguous). -/
inductive Register where
  | ProductNumber
  | SoftwareVersion
  | DebugEvents
  | Reserved
  | Commands
  | OtpBank1
  | OtpBank2
  | OtpBank3
  | QuickRelease
  | Movement
  | TouchThreshold
  | ProximityThreshold
  | TempInterferenceThreshold
  | CH0_Multipliers
  | CH0_Compensation
  | CH1_Multipliers
  | CH1_Compensation
  | System_Flags
  | UI_Flags
  | ATI_Flags
  | EventFlags
  | CH0_ACF_H
  | CH0_ACF_L
  | CH0_LTA_H
  | CH0_LTA_L
  | CH0_QRD_H
  | CH0_QRD_L
  | CH1_ACF_H
  | CH1_ACF_L
  | CH1_UMOV_H
  | CH1_UMOV_L
  | CH1_LMOV_H
  | CH1_LMOV_L
  | CH1_RAW_H
  | CH1_RAW_L
  | Temperature_H
  | Temperature_L
  | LtaHaltTimer_H
  | LtaHaltTimer_L
  | FilterHaltTimer
  | TimerReadInput
  | TimerRedoAti
  deriving DecidableEq, Fintype, Repr

/-- The `#[repr(u8)]` discriminant of each register (`reg as u8`). -/
def Register.toNat : Register → Nat
  | .ProductNumber => 0x00
  | .SoftwareVersion => 0x01
  | .DebugEvents => 0x02
  | .Reserved => 0x03
  | .Commands => 0x04
  | .OtpBank1 => 0x05
  | .OtpBank2 => 0x06
  | .OtpBank3 => 0x07
  | .QuickRelease => 0x08
  | .Movement => 0x09
  | .TouchThreshold => 0x0A
  | .ProximityThreshold => 0x0B
  | .TempInterferenceThreshold => 0x0C
  | .CH0_Multipliers => 0x0D
  | .CH0_Compensation => 0x0E
  | .CH1_Multipliers => 0x0F
  | .CH1_Compensation => 0x10
  | .System_Flags => 0x11
  | .UI_Flags => 0x12
  | .ATI_Flags => 0x13
  | .EventFlags => 0x14
  | .CH0_ACF_H => 0x15
  | .CH0_ACF_L => 0x16
  | .CH0_LTA_H => 0x17
  | .CH0_LTA_L => 0x18
  | .CH0_QRD_H => 0x19
  | .CH0_QRD_L => 0x1A
  | .CH1_ACF_H => 0x1B
  | .CH1_ACF_L => 0x1C
  | .CH1_UMOV_H => 0x1D
  | .CH1_UMOV_L => 0x1E
  | .CH1_LMOV_H => 0x1F
  | .CH1_LMOV_L => 0x20
  | .CH1_RAW_H => 0x21
  | .CH1_RAW_L => 0x22
  | .Temperature_H => 0x23
  | .Temperature_L => 0x24
  | .LtaHaltTimer_H => 0x25
  | .LtaHaltTimer_L => 0x26
  | .FilterHaltTimer => 0x27
  | .TimerReadInput => 0x28
  | .TimerRedoAti => 0x29

/-- `Register::try_from_primitive`: partial inverse of the discriminant map. -/
def Register.ofNat? : Nat → Option Register
  | 0x00 => some .ProductNumber
  | 0x01 => some .SoftwareVersion
  | 0x02 => some .DebugEvents
  | 0x03 => some .Reserved
  | 0x04 => some .Commands
  | 0x05 => some .OtpBank1
  | 0x06 => some .OtpBank2
  | 0x07 => some .OtpBank3
  | 0x08 => some .QuickRelease
  | 0x09 => some .Movement
  | 0x0A => some .TouchThreshold
  | 0x0B => some .ProximityThreshold
  | 0x0C => some .TempInterferenceThreshold
  | 0x0D => some .CH0_Multipliers
  | 0x0E => some .CH0_Compensation
  | 0x0F => some .CH1_Multipliers
  | 0x10 => some .CH1_Compensation
  | 0x11 => some .System_Flags
  | 0x12 => some .UI_Flags
  | 0x13 => some .ATI_Flags
  | 0x14 => some .EventFlags
  | 0x15 => some .CH0_ACF_H
  | 0x16 => some .CH0_ACF_L
  | 0x17 => some .CH0_LTA_H
  | 0x18 => some .CH0_LTA_L
  | 0x19 => some .CH0_QRD_H
  | 0x1A => some .CH0_QRD_L
  | 0x1B => some .CH1_ACF_H
  | 0x1C => some .CH1_ACF_L
  | 0x1D => some .CH1_UMOV_H
  | 0x1E => some .CH1_UMOV_L
  | 0x1F => some .CH1_LMOV_H
  | 0x20 => some .CH1_LMOV_L
  | 0x21 => some .CH1_RAW_H
  | 0x22 => some .CH1_RAW_L
  | 0x23 => some .Temperature_H
  | 0x24 => some .Temperature_L
  | 0x25 => some .LtaHaltTimer_H
  | 0x26 => some .LtaHaltTimer_L
  | 0x27 => some .FilterHaltTimer
  | 0x28 => some .TimerReadInput
  | 0x29 => some .TimerRedoAti
  | _ => none

/-- `Register::from_u8`: lookup, `InvalidRegister` on failure. -/
def Register.from_u8 (E : Type) (n : Nat) : Except (Error E) Register :=
  match Register.ofNat? n with
  | some r => .ok r
  | none => .error .InvalidRegister

/-- `Register::next`: the register at address `self as u8 + 1`. -/
def Register.next (E : Type) (r : Register) : Except (Error E) Register :=
  Register.from_u8 E (r.toNat + 1)

/-- `Register::is_writable` from src/registers.rs. -/
def Register.is_writable : Register → Bool
  | .Reserved => true
  | .Commands => true
  | .OtpBank1 => true
  | .OtpBank2 => true
  | .OtpBank3 => true
  | .QuickRelease => true
  | .Movement => true
  | .TouchThreshold => true
  | .ProximityThreshold => true
  | .TempInterferenceThreshold => true
  | .CH0_Multipliers => true
  | .CH0_Compensation => true
  | .CH1_Multipliers => true
  | .CH1_Compensation => true
  | _ => false

/-- `registers::PRODUCT_NUMBER`. -/
def PRODUCT_NUMBER : Nat := 0x40

/-- `SoftwareVersion` enum (0x06 IQS231A, 0x07 IQS231B). -/
inductive SoftwareVersion where
  | IQS231A
  | IQS231B
  deriving DecidableEq, Fintype, Repr

/-- `SoftwareVersion::try_from_primitive`. -/
def SoftwareVersion.ofNat? : Nat → Option SoftwareVersion
  | 0x06 => some .IQS231A
  | 0x07 => some .IQS231B
  | _ => none

/-! ## Bitfield codecs (src/registers.rs)

`modular_bitfield` packs the declared fields LSB-first; the encodings
below are arithmetic renderings of the resulting shift/mask layout,
checked against the repository's own byte-constant unit tests
(`otpbank3_bitfield_does_its_thing`, `quickrelease_bitfield_does_its_thing`). -/

/-- 2-bit `ProximityThreshold` specifier. -/
inductive ProximityThreshold where
  | Counts4
  | Counts6
  | Counts8
  | Counts10
  deriving DecidableEq, Fintype, Repr

def ProximityThreshold.toBits : ProximityThreshold → Nat
  | .Counts4 => 0
  | .Counts6 => 1
  | .Counts8 => 2
  | .Counts10 => 3

/-- Total decoding of a 2-bit pattern (`From<u8> for ProximityThreshold`
masks with `0x03`; the bitfield getter likewise sees only 2 bits). -/
def ProximityThreshold.ofBits (n : Nat) : ProximityThreshold :=
  if n % 4 = 0 then .Counts4
  else if n % 4 = 1 then .Counts6
  else if n % 4 = 2 then .Counts8
  else .Counts10

/-- 2-bit `UiSelect` specifier. -/
inductive UiSelect where
  | ProxNoMov
  | ProxWithMov
  | ProxWithMovTouchNoMov
  | ProxWithMovTouchOnIo2
  deriving DecidableEq, Fintype, Repr

def UiSelect.toBits : UiSelect → Nat
  | .ProxNoMov => 0
  | .ProxWithMov => 1
  | .ProxWithMovTouchNoMov => 2
  | .ProxWithMovTouchOnIo2 => 3

def UiSelect.ofBits (n : Nat) : UiSelect :=
  if n % 4 = 0 then .ProxNoMov
  else if n % 4 = 1 then .ProxWithMov
  else if n % 4 = 2 then .ProxWithMovTouchNoMov
  else .ProxWithMovTouchOnIo2

/-- 2-bit `BaseValue` specifier. -/
inductive BaseValue where
  | Counts100
  | Counts75
  | Counts150
  | Counts200
  deriving DecidableEq, Fintype, Repr

def BaseValue.toBits : BaseValue → Nat
  | .Counts100 => 0
  | .Counts75 => 1
  | .Counts150 => 2
  | .Counts200 => 3

def BaseValue.ofBits (n : Nat) : BaseValue :=
  if n % 4 = 0 then .Counts100
  else if n % 4 = 1 then .Counts75
  else if n % 4 = 2 then .Counts150
  else .Counts200

/-- 2-bit `SampleRate` specifier. -/
inductive SampleRate where
  | Rate30Hz
  | Rate100Hz
  | Rate8Hz
  | Rate4Hz
  deriving DecidableEq, Fintype, Repr

def SampleRate.toBits : SampleRate → Nat
  | .Rate30Hz => 0
  | .Rate100Hz => 1
  | .Rate8Hz => 2
  | .Rate4Hz => 3

def SampleRate.ofBits (n : Nat) : SampleRate :=
  if n % 4 = 0 then .Rate30Hz
  else if n % 4 = 1 then .Rate100Hz
  else if n % 4 = 2 then .Rate8Hz
  else .Rate4Hz

/-- 2-bit `Io2Function` specifier. -/
inductive Io2Function where
  | Sensitivity
  | Synchronize
  | Movement
  | Ignore
  deriving DecidableEq, Fintype, Repr

def Io2Function.toBits : Io2Function → Nat
  | .Sensitivity => 0
  | .Synchronize => 1
  | .Movement => 2
  | .Ignore => 3

def Io2Function.ofBits (n : Nat) : Io2Function :=
  if n % 4 = 0 then .Sensitivity
  else if n % 4 = 1 then .Synchronize
  else if n % 4 = 2 then .Movement
  else .Ignore

/-- 2-bit `ChargeTransferFrequency` specifier. -/
inductive ChargeTransferFrequency where
  | Freq500kHz
  | Freq125kHz
  | Freq64kHz
  | Freq16kHz
  deriving DecidableEq, Fintype, Repr

def ChargeTransferFrequency.toBits : ChargeTransferFrequency → Nat
  | .Freq500kHz => 0
  | .Freq125kHz => 1
  | .Freq64kHz => 2
  | .Freq16kHz => 3

def ChargeTransferFrequency.ofBits (n : Nat) : ChargeTransferFrequency :=
  if n % 4 = 0 then .Freq500kHz
  else if n % 4 = 1 then .Freq125kHz
  else if n % 4 = 2 then .Freq64kHz
  else .Freq16kHz

/-- 4-bit `QuickReleaseThreshold` specifier (discriminants 0x0-0xF in
declaration order). -/
inductive QuickReleaseThreshold where
  | Qrt100
  | Qrt150
  | Qrt50
  | Qrt250
  | Qrt10
  | Qrt20
  | Qrt25
  | Qrt30
  | Qrt75
  | Qrt200
  | Qrt300
  | Qrt400
  | Qrt500
  | Qrt750
  | Qrt850
  | Qrt1000
  deriving DecidableEq, Fintype, Repr

def QuickReleaseThreshold.toBits : QuickReleaseThreshold → Nat
  | .Qrt100 => 0x0
  | .Qrt150 => 0x1
  | .Qrt50 => 0x2
  | .Qrt250 => 0x3
  | .Qrt10 => 0x4
  | .Qrt20 => 0x5
  | .Qrt25 => 0x6
  | .Qrt30 => 0x7
  | .Qrt75 => 0x8
  | .Qrt200 => 0x9
  | .Qrt300 => 0xA
  | .Qrt400 => 0xB
  | .Qrt500 => 0xC
  | .Qrt750 => 0xD
  | .Qrt850 => 0xE
  | .Qrt1000 => 0xF

def QuickReleaseThreshold.ofBits (n : Nat) : QuickReleaseThreshold :=
  if n % 16 = 0x0 then .Qrt100
  else if n % 16 = 0x1 then .Qrt150
  else if n % 16 = 0x2 then .Qrt50
  else if n % 16 = 0x3 then .Qrt250
  else if n % 16 = 0x4 then .Qrt10
  else if n % 16 = 0x5 then .Qrt20
  else if n % 16 = 0x6 then .Qrt25
  else if n % 16 = 0x7 then .Qrt30
  else if n % 16 = 0x8 then .Qrt75
  else if n % 16 = 0x9 then .Qrt200
  else if n % 16 = 0xA then .Qrt300
  else if n % 16 = 0xB then .Qrt400
  else if n % 16 = 0xC then .Qrt500
  else if n % 16 = 0xD then .Qrt750
  else if n % 16 = 0xE then .Qrt850
  else .Qrt1000

/-- `QuickReleaseThreshold::counts`. -/
def QuickReleaseThreshold.counts : QuickReleaseThreshold → Nat
  | .Qrt100 => 100
  | .Qrt150 => 150
  | .Qrt50 => 50
  | .Qrt250 => 250
  | .Qrt10 => 10
  | .Qrt20 => 20
  | .Qrt25 => 25
  | .Qrt30 => 30
  | .Qrt75 => 75
  | .Qrt200 => 200
  | .Qrt300 => 300
  | .Qrt400 => 400
  | .Qrt500 => 500
  | .Qrt750 => 750
  | .Qrt850 => 850
  | .Qrt1000 => 1000

/-- The 16 physical counts of the quick-release table, as listed. -/
def qrtCountsList : List Nat :=
  [10, 20, 25, 30, 50, 75, 100, 150, 200, 250, 300, 400, 500, 750, 850, 1000]

/-- `OtpBank1` bitfield: touch_thresh bits 0-1, ac_filter bits 2-3,
prox_thresh bits 4-5, i2c_addr bits 6-7. -/
structure OtpBank1 where
  touch_thresh : Fin 4
  ac_filter : Fin 4
  prox_thresh : ProximityThreshold
  i2c_addr : Fin 4
  deriving DecidableEq, Fintype, Repr

def OtpBank1.into_bytes (v : OtpBank1) : Nat :=
  v.touch_thresh.val + 4 * v.ac_filter.val + 16 * v.prox_thresh.toBits
    + 64 * v.i2c_addr.val

def OtpBank1.from_bytes (b : Nat) : OtpBank1 where
  touch_thresh := ⟨b % 4, by omega⟩
  ac_filter := ⟨b / 4 % 4, by omega⟩
  prox_thresh := ProximityThreshold.ofBits (b / 16)
  i2c_addr := ⟨b / 64 % 4, by omega⟩

/-- `OtpBank2` bitfield: ui_select bits 0-1, quick_release bit 2,
failsafe_pulses_on_io1 bit 3, base_value bits 4-5, target bit 6,
increase_debounce bit 7. -/
structure OtpBank2 where
  ui_select : UiSelect
  quick_release : Fin 2
  failsafe_pulses_on_io1 : Bool
  base_value : BaseValue
  target : Fin 2
  increase_debounce : Bool
  deriving DecidableEq, Fintype, Repr

def OtpBank2.into_bytes (v : OtpBank2) : Nat :=
  v.ui_select.toBits + 4 * v.quick_release.val
    + 8 * (if v.failsafe_pulses_on_io1 then 1 else 0)
    + 16 * v.base_value.toBits + 64 * v.target.val
    + 128 * (if v.increase_debounce then 1 else 0)

def OtpBank2.from_bytes (b : Nat) : OtpBank2 where
  ui_select := UiSelect.ofBits (b % 4)
  quick_release := ⟨b / 4 % 2, by omega⟩
  failsafe_pulses_on_io1 := b / 8 % 2 = 1
  base_value := BaseValue.ofBits (b / 16)
  target := ⟨b / 64 % 2, by omega⟩
  increase_debounce := b / 128 % 2 = 1

/-- `OtpBank3` bitfield: sample_rate bits 0-1, ati_events_on_io1 bit 2,
io2_function bits 3-4, temp_n_interference_compensation bit 5,
charge_transfer_freq bits 6-7. -/
structure OtpBank3 where
  sample_rate : SampleRate
  ati_events_on_io1 : Fin 2
  io2_function : Io2Function
  temp_n_interference_compensation : Bool
  charge_transfer_freq : ChargeTransferFrequency
  deriving DecidableEq, Fintype, Repr

def OtpBank3.into_bytes (v : OtpBank3) : Nat :=
  v.sample_rate.toBits + 4 * v.ati_events_on_io1.val
    + 8 * v.io2_function.toBits
    + 32 * (if v.temp_n_interference_compensation then 1 else 0)
    + 64 * v.charge_transfer_freq.toBits

def OtpBank3.from_bytes (b : Nat) : OtpBank3 where
  sample_rate := SampleRate.ofBits (b % 4)
  ati_events_on_io1 := ⟨b / 4 % 2, by omega⟩
  io2_function := Io2Function.ofBits (b / 8)
  temp_n_interference_compensation := b / 32 % 2 = 1
  charge_transfer_freq := ChargeTransferFrequency.ofBits (b / 64)

/-- `QuickRelease` bitfield: base bits 0-3, threshold bits 4-7. -/
structure QuickRelease where
  base : Fin 16
  threshold : QuickReleaseThreshold
  deriving DecidableEq, Fintype, Repr

def QuickRelease.into_bytes (v : QuickRelease) : Nat :=
  v.base.val + 16 * v.threshold.toBits

def QuickRelease.from_bytes (b : Nat) : QuickRelease where
  base := ⟨b % 16, by omega⟩
  threshold := QuickReleaseThreshold.ofBits (b / 16)

/-- `ChannelMultiplier` bitfield: compensation_multiplier bits 0-3,
sensitivity_multiplier bits 4-5, reserved bits 6-7. -/
structure ChannelMultiplier where
  compensation_multiplier : Fin 16
  sensitivity_multiplier : Fin 4
  reserved : Fin 4
  deriving DecidableEq, Fintype, Repr

def ChannelMultiplier.into_bytes (v : ChannelMultiplier) : Nat :=
  v.compensation_multiplier.val + 16 * v.sensitivity_multiplier.val
    + 64 * v.reserved.val

def ChannelMultiplier.from_bytes (b : Nat) : ChannelMultiplier where
  compensation_multiplier := ⟨b % 16, by omega⟩
  sensitivity_multiplier := ⟨b / 16 % 4, by omega⟩
  reserved := ⟨b / 64 % 4, by omega⟩

/-! ## Device facade (src/device.rs)

The embedded-hal bus is modelled as a pure stub: `write` and `writeRead`
answer each request from fixed functions (a transport stub).  Every
facade operation returns its `Result` together with the list of bus
transactions it issued, so "no bus write occurs" is `trace = []`. -/

/-- One issued bus transaction. `writeRead` transactions always fill a
2-byte buffer in this driver, so only the written bytes are recorded. -/
inductive BusOp where
  | write (addr : Nat) (bytes : List Nat)
  | writeRead (addr : Nat) (wbytes : List Nat)
  deriving DecidableEq, Repr

/-- Transport stub: `write` and `write_read` (2-byte read buffer)
either fail with a transport error or answer. -/
structure SimBus (E : Type) where
  write : Nat → List Nat → Except E Unit
  writeRead : Nat → List Nat → Except E (Nat × Nat)

/-- `RegValue<T>`: payload plus the event-flag byte
(`MainEvents::from_bits_retain` keeps the raw byte unmasked). -/
structure RegValue (T : Type) where
  main_events : Nat
  value : T
  deriving DecidableEq, Repr

/-- `RegValue::map`. -/
def RegValue.map {A B : Type} (rv : RegValue A) (f : A → B) : RegValue B where
  main_events := rv.main_events
  value := f rv.value

/-- `From<[u8; 2]> for RegValue<u8>`: byte 0 is the event-flag byte,
byte 1 the payload; the Rust buffer is `[u8; 2]`, hence `% 256`. -/
def regValueOfBytes (bytes : Nat × Nat) : RegValue Nat where
  main_events := bytes.1 % 256
  value := bytes.2 % 256

/-- `Iqs231::read_reg`: one write_read of `[reg as u8]` into a 2-byte
buffer. -/
def read_reg {E : Type} (bus : SimBus E) (addr : Nat) (reg : Register) :
    Except (Error E) (RegValue Nat) × List BusOp :=
  match bus.writeRead addr [reg.toNat] with
  | .ok bytes => (.ok (regValueOfBytes bytes), [.writeRead addr [reg.toNat]])
  | .error e => (.error (.IoError e), [.writeRead addr [reg.toNat]])

/-- `Iqs231::write_reg`: writability is checked before any transaction;
a writable register issues exactly one write of `[reg as u8, value]`. -/
def write_reg {E : Type} (bus : SimBus E) (addr : Nat) (reg : Register)
    (value : Nat) : Except (Error E) Unit × List BusOp :=
  if reg.is_writable then
    match bus.write addr [reg.toNat, value] with
    | .ok _ => (.ok (), [.write addr [reg.toNat, value]])
    | .error e => (.error (.IoError e), [.write addr [reg.toNat, value]])
  else
    (.error .RegisterNotWritable, [])

/-- `Iqs231::read_reg16`: high byte at `reg`, low byte at `reg.next()`;
the value is `(hi << 8) | lo` and the event flags are OR-merged.  As in
the source, `reg.next()` is resolved only after the high-byte read. -/
def read_reg16 {E : Type} (bus : SimBus E) (addr : Nat) (reg : Register) :
    Except (Error E) (RegValue Nat) × List BusOp :=
  match read_reg bus addr reg with
  | (.error e, t1) => (.error e, t1)
  | (.ok hi, t1) =>
    match Register.next E reg with
    | .error e => (.error e, t1)
    | .ok reg2 =>
      match read_reg bus addr reg2 with
      | (.error e, t2) => (.error e, t1 ++ t2)
      | (.ok lo, t2) =>
        (.ok ⟨hi.main_events ||| lo.main_events,
              (hi.value <<< 8) ||| lo.value⟩, t1 ++ t2)

/-- `Iqs231::get_prod_nr`. -/
def get_prod_nr {E : Type} (bus : SimBus E) (addr : Nat) :
    Except (Error E) Nat × List BusOp :=
  match read_reg bus addr .ProductNumber with
  | (.error e, t) => (.error e, t)
  | (.ok rv, t) =>
    if rv.value = PRODUCT_NUMBER then (.ok rv.value, t)
    else (.error (.IncorrectProductNumber rv.value), t)

/-- `Iqs231::get_software_version`.  The source reads
`Register::ProductNumber` (device.rs line 77), not `SoftwareVersion`. -/
def get_software_version {E : Type} (bus : SimBus E) (addr : Nat) :
    Except (Error E) SoftwareVersion × List BusOp :=
  match read_reg bus addr .ProductNumber with
  | (.error e, t) => (.error e, t)
  | (.ok rv, t) =>
    match SoftwareVersion.ofNat? rv.value with
    | some v => (.ok v, t)
    | none => (.error (.UnknownSoftwareVersion rv.value), t)

/-- The byte `set_touch_threshold` writes: `(threshold - 4) >> 2` then
`as u8` (the cast is the `% 256`). -/
def touch_threshold_encode (v : Nat) : Nat := ((v - 4) >>> 2) % 256

/-- The map `get_touch_threshold` applies to the read byte:
`((v as u16) << 2) + 4` (fits `u16` since the byte is below 256). -/
def touch_threshold_decode (c : Nat) : Nat := (c <<< 2) + 4

/-- `Iqs231::set_touch_threshold`. -/
def set_touch_threshold {E : Type} (bus : SimBus E) (addr : Nat)
    (threshold : Nat) : Except (Error E) Unit × List BusOp :=
  if threshold < 4 ∨ 1024 < threshold then
    (.error .TouchThresholdOutOfRange, [])
  else
    write_reg bus addr .TouchThreshold (touch_threshold_encode threshold)

/-- `Iqs231::get_touch_threshold`. -/
def get_touch_threshold {E : Type} (bus : SimBus E) (addr : Nat) :
    Except (Error E) (RegValue Nat) × List BusOp :=
  match read_reg bus addr .TouchThreshold with
  | (.error e, t) => (.error e, t)
  | (.ok rv, t) => (.ok (rv.map touch_threshold_decode), t)

/-- `Commands::STANDALONE.bits()`. -/
def STANDALONE_BIT : Nat := 0x01

/-- `Iqs231::send_commands`: `commands.contains(Commands::STANDALONE)`
is `bits & 0x01 == 0x01`. -/
def send_commands {E : Type} (bus : SimBus E) (addr : Nat)
    (commands : Nat) : Except (Error E) Unit × List BusOp :=
  if commands &&& STANDALONE_BIT = STANDALONE_BIT then
    (.error .ShutdownCommandNotAllowed, [])
  else
    write_reg bus addr .Commands commands

/-- `Iqs231::get_debug_events`.  The source reads
`Register::ProductNumber` (device.rs line 187), not `DebugEvents`;
`DebugEvents::from_bits_retain` keeps the raw byte. -/
def get_debug_events {E : Type} (bus : SimBus E) (addr : Nat) :
    Except (Error E) Nat × List BusOp :=
  match read_reg bus addr .ProductNumber with
  | (.error e, t) => (.error e, t)
  | (.ok rv, t) => (.ok rv.value, t)

/-- `Iqs231::get_system_flags`: reads `Register::System_Flags`
(device.rs line 192). -/
def get_system_flags {E : Type} (bus : SimBus E) (addr : Nat) :
    Except (Error E) Nat × List BusOp :=
  match read_reg bus addr .System_Flags with
  | (.error e, t) => (.error e, t)
  | (.ok rv, t) => (.ok rv.value, t)

/-- `Iqs231::get_move_lower_reference_count`: a 16-bit read started at
`Register::CH1_LMOV_L` (device.rs line 263). -/
def get_move_lower_reference_count {E : Type} (bus : SimBus E)
    (addr : Nat) : Except (Error E) (RegValue Nat) × List BusOp :=
  read_reg16 bus addr .CH1_LMOV_L

/-- `MainEvents::PROX.bits()`. -/
def MAIN_EVENTS_PROX : Nat := 0x01

/-- The Read-Write registers as the spec lists them. -/
def writableRegisters : List Register :=
  [.Reserved, .Commands, .OtpBank1, .OtpBank2, .OtpBank3, .QuickRelease,
   .Movement, .TouchThreshold, .ProximityThreshold,
   .TempInterferenceThreshold, .CH0_Multipliers, .CH0_Compensation,
   .CH1_Multipliers, .CH1_Compensation]

/-! ## Concrete transport stubs for witnesses -/

/-- A stub whose every 2-byte read answers `(b0, b1)` and whose every
write succeeds. -/
def busConst (b0 b1 : Nat) : SimBus Unit where
  write := fun _ _ => .ok ()
  writeRead := fun _ _ => .ok (b0, b1)

/-- A stub answering reads from a table keyed by the register byte
written in the transaction; writes succeed. -/
def busTable (f : Nat → Nat × Nat) : SimBus Unit where
  write := fun _ _ => .ok ()
  writeRead := fun _ w => .ok (f (w.headD 0))

/-- Read table for the 16-bit-read witnesses: address 0x15 answers
bytes (0x02, 0x03), address 0x16 answers (0x04, 0x05), address 0x20
answers (0x0A, 0x12), address 0x21 answers (0x0B, 0x34). -/
def busPairs : SimBus Unit :=
  busTable (fun a =>
    if a = 0x15 then (0x02, 0x03)
    else if a = 0x16 then (0x04, 0x05)
    else if a = 0x20 then (0x0A, 0x12)
    else if a = 0x21 then (0x0B, 0x34)
    else (0, 0))

/-! ## Helper lemmas -/

set_option maxRecDepth 40000 in
theorem otpBank1_from_into :
    ∀ v : OtpBank1, OtpBank1.from_bytes v.into_bytes = v := by decide

set_option maxRecDepth 40000 in
theorem otpBank2_from_into :
    ∀ v : OtpBank2, OtpBank2.from_bytes v.into_bytes = v := by decide

set_option maxRecDepth 40000 in
theorem otpBank3_from_into :
    ∀ v : OtpBank3, OtpBank3.from_bytes v.into_bytes = v := by decide

set_option maxRecDepth 40000 in
theorem quickRelease_from_into :
    ∀ v : QuickRelease, QuickRelease.from_bytes v.into_bytes = v := by decide

set_option maxRecDepth 40000 in
theorem channelMultiplier_from_into :
    ∀ v : ChannelMultiplier,
      ChannelMultiplier.from_bytes v.into_bytes = v := by decide

/-- The embedded OtpBank3 layout reproduces the byte constants of the
repository's `otpbank3_bitfield_does_its_thing` test. -/
theorem otpBank3_matches_repo_test :
    OtpBank3.into_bytes ⟨.Rate8Hz, 0, .Sensitivity, false, .Freq64kHz⟩ = 0x82 ∧
    OtpBank3.into_bytes ⟨.Rate30Hz, 1, .Sensitivity, true, .Freq125kHz⟩ = 0x64 := by
  decide

/-- The embedded QuickRelease layout reproduces the byte constants of
the repository's `quickrelease_bitfield_does_its_thing` test. -/
theorem quickRelease_matches_repo_test :
    QuickRelease.from_bytes 0xb4 = ⟨4, .Qrt400⟩ ∧
    QuickRelease.into_bytes ⟨5, .Qrt200⟩ = 0x95 ∧
    QuickRelease.from_bytes 0x4a = ⟨0xa, .Qrt10⟩ := by
  decide

theorem read_reg_eq_of_ok {E : Type} {bus : SimBus E} {a : Nat}
    {r : Register} {b : Nat × Nat}
    (h : bus.writeRead a [r.toNat] = .ok b) :
    read_reg bus a r = (.ok (regValueOfBytes b), [.writeRead a [r.toNat]]) := by
  simp [read_reg, h]

theorem write_reg_ok {E : Type} {bus : SimBus E} {a v : Nat} {r : Register}
    (hw : r.is_writable = true) (h : bus.write a [r.toNat, v] = .ok ()) :
    write_reg bus a r v = (.ok (), [.write a [r.toNat, v]]) := by
  simp [write_reg, hw, h]

theorem write_reg_not_writable {E : Type} {bus : SimBus E} {a v : Nat}
    {r : Register} (hw : r.is_writable = false) :
    write_reg bus a r v = (.error .RegisterNotWritable, []) := by
  simp [write_reg, hw]

/-- A write to a writable register always issues exactly the one write
transaction, whether or not the transport accepts it. -/
theorem write_reg_trace {E : Type} {bus : SimBus E} {a v : Nat}
    {r : Register} (hw : r.is_writable = true) :
    (write_reg bus a r v).2 = [.write a [r.toNat, v]] := by
  cases h : bus.write a [r.toNat, v] <;> simp [write_reg, hw, h]

theorem read_reg16_eq_of_ok {E : Type} {bus : SimBus E} {a : Nat}
    {r r2 : Register} {h0 h1 l0 l1 : Nat}
    (hn : Register.next E r = .ok r2)
    (hhi : bus.writeRead a [r.toNat] = .ok (h0, h1))
    (hlo : bus.writeRead a [r2.toNat] = .ok (l0, l1)) :
    read_reg16 bus a r =
      (.ok ⟨(h0 % 256) ||| (l0 % 256), ((h1 % 256) <<< 8) ||| (l1 % 256)⟩,
       [.writeRead a [r.toNat], .writeRead a [r2.toNat]]) := by
  simp [read_reg16, read_reg, hn, hhi, hlo, regValueOfBytes]

/-! ## Claim theorems -/

/-- C1: for each of the five composite one-byte register codecs
(OtpBank1, OtpBank2, OtpBank3, QuickRelease, ChannelMultiplier),
decoding the encoded byte returns every valid field combination exactly
(`from_bytes (into_bytes v) = v`), and `into_bytes` is injective over
the full field space. -/
theorem composite_codecs_roundtrip_and_injective :
    ((∀ v : OtpBank1, OtpBank1.from_bytes v.into_bytes = v) ∧
      Function.Injective OtpBank1.into_bytes) ∧
    ((∀ v : OtpBank2, OtpBank2.from_bytes v.into_bytes = v) ∧
      Function.Injective OtpBank2.into_bytes) ∧
    ((∀ v : OtpBank3, OtpBank3.from_bytes v.into_bytes = v) ∧
      Function.Injective OtpBank3.into_bytes) ∧
    ((∀ v : QuickRelease, QuickRelease.from_bytes v.into_bytes = v) ∧
      Function.Injective QuickRelease.into_bytes) ∧
    ((∀ v : ChannelMultiplier,
        ChannelMultiplier.from_bytes v.into_bytes = v) ∧
      Function.Injective ChannelMultiplier.into_bytes) :=
  ⟨⟨otpBank1_from_into,
    Function.LeftInverse.injective otpBank1_from_into⟩,
   ⟨otpBank2_from_into,
    Function.LeftInverse.injective otpBank2_from_into⟩,
   ⟨otpBank3_from_into,
    Function.LeftInverse.injective otpBank3_from_into⟩,
   ⟨quickRelease_from_into,
    Function.LeftInverse.injective quickRelease_from_into⟩,
   ⟨channelMultiplier_from_into,
    Function.LeftInverse.injective channelMultiplier_from_into⟩⟩

/-- C3: the quick-release threshold codec is an exact bijection between
the 16 four-bit codes and the 16 physical counts
{10,20,25,30,50,75,100,150,200,250,300,400,500,750,850,1000}: codes
round-trip through the bit encoding, every code's count is in the
table, every listed count is reached by exactly one code, and code 0x4
maps to 10 while code 0xF maps to 1000. -/
theorem quick_release_threshold_bijection :
    (∀ c : QuickReleaseThreshold,
        QuickReleaseThreshold.ofBits c.toBits = c) ∧
    (∀ n : Fin 16, (QuickReleaseThreshold.ofBits n.val).toBits = n.val) ∧
    (∀ c : QuickReleaseThreshold, c.counts ∈ qrtCountsList) ∧
    (∀ i : Fin qrtCountsList.length,
        ∃ c : QuickReleaseThreshold, c.counts = qrtCountsList.get i ∧
          ∀ c' : QuickReleaseThreshold,
            c'.counts = qrtCountsList.get i → c' = c) ∧
    (QuickReleaseThreshold.ofBits 0x4).counts = 10 ∧
    (QuickReleaseThreshold.ofBits 0xF).counts = 1000 := by
  refine ⟨by decide, by decide, by decide, by decide, by decide, by decide⟩

/-- Witness for C1 at a concrete field assignment. -/
theorem composite_codecs_roundtrip_and_injective_witness :
    OtpBank1.from_bytes
        (OtpBank1.into_bytes ⟨1, 2, .Counts8, 3⟩) = ⟨1, 2, .Counts8, 3⟩ ∧
    QuickRelease.from_bytes
        (QuickRelease.into_bytes ⟨5, .Qrt200⟩) = ⟨5, .Qrt200⟩ ∧
    (⟨7, 2, 1⟩ : ChannelMultiplier) = ⟨7, 2, 1⟩ :=
  ⟨composite_codecs_roundtrip_and_injective.1.1 ⟨1, 2, .Counts8, 3⟩,
   composite_codecs_roundtrip_and_injective.2.2.2.1.1 ⟨5, .Qrt200⟩,
   composite_codecs_roundtrip_and_injective.2.2.2.2.2 rfl⟩

/-- Witness for C3 at the two named codes. -/
theorem quick_release_threshold_bijection_witness :
    (QuickReleaseThreshold.ofBits 0x4).counts = 10 ∧
    (QuickReleaseThreshold.ofBits 0xF).counts = 1000 ∧
    QuickReleaseThreshold.Qrt10.counts ∈ qrtCountsList :=
  ⟨quick_release_threshold_bijection.2.2.2.2.1,
   quick_release_threshold_bijection.2.2.2.2.2,
   quick_release_threshold_bijection.2.2.1 .Qrt10⟩

/-- C5: writability classification — `is_writable` holds exactly for
the 14 Read-Write registers; a write to any other register fails with
`RegisterNotWritable` issuing no bus transaction; a write to any
writable register with a working transport succeeds and issues exactly
one bus write. -/
theorem writability_classification (E : Type) (bus : SimBus E) (a v : Nat) :
    (∀ r : Register, r.is_writable = true ↔ r ∈ writableRegisters) ∧
    Register.ProductNumber.is_writable = false ∧
    Register.SoftwareVersion.is_writable = false ∧
    Register.DebugEvents.is_writable = false ∧
    (∀ r : Register, r.is_writable = false →
        write_reg bus a r v = (.error .RegisterNotWritable, [])) ∧
    (∀ r : Register, r.is_writable = true →
        bus.write a [r.toNat, v] = .ok () →
        write_reg bus a r v = (.ok (), [.write a [r.toNat, v]])) := by
  refine ⟨fun r => by cases r <;> decide, rfl, rfl, rfl,
    fun r hr => write_reg_not_writable hr,
    fun r hr hw => write_reg_ok hr hw⟩

/-- Witness for C5: a read-only register rejects without a bus write, a
writable one issues exactly one write. -/
theorem writability_classification_witness :
    write_reg (busConst 0 0) 0x44 .ProductNumber 7 =
      (.error .RegisterNotWritable, []) ∧
    write_reg (busConst 0 0) 0x44 .OtpBank1 7 =
      (.ok (), [.write 0x44 [Register.OtpBank1.toNat, 7]]) := by
  have h := writability_classification Unit (busConst 0 0) 0x44 7
  exact ⟨h.2.2.2.2.1 .ProductNumber rfl, h.2.2.2.2.2 .OtpBank1 rfl rfl⟩

/-- C2: `set_touch_threshold v` fails with `TouchThresholdOutOfRange`
and no bus write exactly when `v < 4` or `v > 1024`; in range the
written code is `(v - 4) / 4`; the decode used by
`get_touch_threshold` is `code * 4 + 4`; and the round-trip satisfies
`decode (encode v) ≤ v` and `v - decode (encode v) < 4`. -/
theorem touch_threshold_spec (E : Type) (bus : SimBus E) (a : Nat) :
    (∀ v : Nat,
        set_touch_threshold bus a v = (.error .TouchThresholdOutOfRange, [])
          ↔ (v < 4 ∨ 1024 < v)) ∧
    (∀ v : Nat, 4 ≤ v → v ≤ 1024 →
        set_touch_threshold bus a v =
          write_reg bus a .TouchThreshold ((v - 4) / 4)) ∧
    (∀ c : Nat, touch_threshold_decode c = c * 4 + 4) ∧
    (∀ c0 c1 : Nat,
        bus.writeRead a [Register.TouchThreshold.toNat] = .ok (c0, c1) →
        get_touch_threshold bus a =
          (.ok ⟨c0 % 256, touch_threshold_decode (c1 % 256)⟩,
           [.writeRead a [Register.TouchThreshold.toNat]])) ∧
    (∀ v : Nat, 4 ≤ v → v ≤ 1024 →
        touch_threshold_decode (touch_threshold_encode v) ≤ v ∧
        v - touch_threshold_decode (touch_threshold_encode v) < 4) := by
  have henc : ∀ v : Nat, v ≤ 1024 → touch_threshold_encode v = (v - 4) / 4 := by
    intro v hv
    rw [touch_threshold_encode, Nat.shiftRight_eq_div_pow]
    have h22 : (2 : Nat) ^ 2 = 4 := rfl
    rw [h22]
    omega
  have hdec : ∀ c : Nat, touch_threshold_decode c = c * 4 + 4 := by
    intro c
    rw [touch_threshold_decode, Nat.shiftLeft_eq]
  refine ⟨?_, ?_, hdec, ?_, ?_⟩
  · intro v
    constructor
    · intro h
      by_contra hv
      rw [set_touch_threshold, if_neg hv] at h
      have htr := @write_reg_trace E bus a (touch_threshold_encode v)
        Register.TouchThreshold rfl
      rw [h] at htr
      simp at htr
    · intro h
      rw [set_touch_threshold, if_pos h]
  · intro v h4 h1024
    have hnr : ¬(v < 4 ∨ 1024 < v) := by omega
    rw [set_touch_threshold, if_neg hnr, henc v h1024]
  · intro c0 c1 h
    rw [get_touch_threshold, read_reg_eq_of_ok h]
    rfl
  · intro v h4 h1024
    rw [henc v h1024, hdec]
    omega

/-- Witness for C2 at the boundary inputs 3, 10 and read byte 3. -/
theorem touch_threshold_spec_witness :
    (set_touch_threshold (busConst 0 3) 0x44 3 =
        (.error .TouchThresholdOutOfRange, []) ↔ (3 < 4 ∨ 1024 < 3)) ∧
    set_touch_threshold (busConst 0 3) 0x44 10 =
      write_reg (busConst 0 3) 0x44 .TouchThreshold ((10 - 4) / 4) ∧
    get_touch_threshold (busConst 0 3) 0x44 =
      (.ok ⟨0 % 256, touch_threshold_decode (3 % 256)⟩,
       [.writeRead 0x44 [Register.TouchThreshold.toNat]]) ∧
    touch_threshold_decode (touch_threshold_encode 10) ≤ 10 ∧
    10 - touch_threshold_decode (touch_threshold_encode 10) < 4 := by
  have h := touch_threshold_spec Unit (busConst 0 3) 0x44
  exact ⟨h.1 3, h.2.1 10 (by decide) (by decide), h.2.2.2.1 0 3 rfl,
    h.2.2.2.2 10 (by decide) (by decide)⟩

/-- C4: a 16-bit logical read composes two single-byte reads at a
register and its successor; the returned value is `(high <<< 8) ||| low`
and the event flags are the bitwise OR of the two event-flag bytes. -/
theorem read_reg16_composition (E : Type) (bus : SimBus E) (a : Nat) :
    ∀ (r r2 : Register) (h0 h1 l0 l1 : Nat),
      Register.next E r = .ok r2 →
      bus.writeRead a [r.toNat] = .ok (h0, h1) →
      bus.writeRead a [r2.toNat] = .ok (l0, l1) →
      read_reg16 bus a r =
        (.ok ⟨(h0 % 256) ||| (l0 % 256), ((h1 % 256) <<< 8) ||| (l1 % 256)⟩,
         [.writeRead a [r.toNat], .writeRead a [r2.toNat]]) :=
  fun _ _ _ _ _ _ hn hhi hlo => read_reg16_eq_of_ok hn hhi hlo

/-- Witness for C4: high-byte transaction bytes [0x02, 0x03] and
low-byte bytes [0x04, 0x05] give value 0x0305 and merged event flags
0x02 ||| 0x04 = 0x06. -/
theorem read_reg16_composition_witness :
    read_reg16 busPairs 0x44 .CH0_ACF_H =
      (.ok ⟨(0x02 % 256) ||| (0x04 % 256),
            ((0x03 % 256) <<< 8) ||| (0x05 % 256)⟩,
       [.writeRead 0x44 [Register.CH0_ACF_H.toNat],
        .writeRead 0x44 [Register.CH0_ACF_L.toNat]]) ∧
    ((0x03 % 256) <<< 8) ||| (0x05 % 256) = 0x0305 ∧
    (0x02 % 256) ||| (0x04 % 256) = 0x02 ||| 0x04 ∧
    (0x02 : Nat) ||| 0x04 = 0x06 := by
  refine ⟨read_reg16_composition Unit busPairs 0x44 .CH0_ACF_H .CH0_ACF_L
    0x02 0x03 0x04 0x05 rfl rfl rfl, by decide, by decide, by decide⟩

/-- C6: `send_commands` fails with the forbidden-command error
(`ShutdownCommandNotAllowed`) and issues no bus write whenever the
standalone/warm-boot bit (0x01) is set, regardless of the other bits;
without that bit it forwards the byte in a single write transaction to
the Commands address (0x04). -/
theorem send_commands_spec (E : Type) (bus : SimBus E) (a : Nat) :
    (∀ c : Nat, c &&& STANDALONE_BIT = STANDALONE_BIT →
        send_commands bus a c = (.error .ShutdownCommandNotAllowed, [])) ∧
    (∀ c : Nat, c &&& STANDALONE_BIT ≠ STANDALONE_BIT →
        send_commands bus a c = write_reg bus a .Commands c) ∧
    (∀ c : Nat, c &&& STANDALONE_BIT ≠ STANDALONE_BIT →
        bus.write a [Register.Commands.toNat, c] = .ok () →
        send_commands bus a c =
          (.ok (), [.write a [Register.Commands.toNat, c]])) ∧
    Register.Commands.toNat = 0x04 := by
  refine ⟨?_, ?_, ?_, rfl⟩
  · intro c hc
    rw [send_commands, if_pos hc]
  · intro c hc
    rw [send_commands, if_neg hc]
  · intro c hc hw
    rw [send_commands, if_neg hc]
    exact write_reg_ok (show Register.Commands.is_writable = true from rfl) hw

/-- Witness for C6: command byte 0x81 (ATI_CH0 plus STANDALONE) is
rejected with no bus write; byte 0x80 is forwarded in one write. -/
theorem send_commands_spec_witness :
    send_commands (busConst 0 0) 0x44 0x81 =
      (.error .ShutdownCommandNotAllowed, []) ∧
    send_commands (busConst 0 0) 0x44 0x80 =
      (.ok (), [.write 0x44 [Register.Commands.toNat, 0x80]]) := by
  have h := send_commands_spec Unit (busConst 0 0) 0x44
  exact ⟨h.1 0x81 (by decide), h.2.2.1 0x80 (by decide) rfl⟩

/-- C7: `get_prod_nr` succeeds returning the product number exactly
when the read byte equals 0x40, otherwise fails with
`IncorrectProductNumber` carrying the read byte; transaction bytes
[0x01, 0x40] decode to a reading with value 0x40 and PROX event flags
and `get_prod_nr` succeeds, while [0x00, 0x41] makes it fail with
`IncorrectProductNumber 0x41`. -/
theorem get_prod_nr_spec :
    (∀ (E : Type) (bus : SimBus E) (a e v : Nat),
        bus.writeRead a [Register.ProductNumber.toNat] = .ok (e, v) →
        v % 256 = PRODUCT_NUMBER →
        get_prod_nr bus a =
          (.ok PRODUCT_NUMBER,
           [.writeRead a [Register.ProductNumber.toNat]])) ∧
    (∀ (E : Type) (bus : SimBus E) (a e v : Nat),
        bus.writeRead a [Register.ProductNumber.toNat] = .ok (e, v) →
        v % 256 ≠ PRODUCT_NUMBER →
        get_prod_nr bus a =
          (.error (.IncorrectProductNumber (v % 256)),
           [.writeRead a [Register.ProductNumber.toNat]])) ∧
    (∀ (E : Type) (bus : SimBus E) (a : Nat),
        bus.writeRead a [Register.ProductNumber.toNat] = .ok (0x01, 0x40) →
        read_reg bus a .ProductNumber =
          (.ok ⟨MAIN_EVENTS_PROX, 0x40⟩,
           [.writeRead a [Register.ProductNumber.toNat]]) ∧
        get_prod_nr bus a =
          (.ok 0x40, [.writeRead a [Register.ProductNumber.toNat]])) ∧
    (∀ (E : Type) (bus : SimBus E) (a : Nat),
        bus.writeRead a [Register.ProductNumber.toNat] = .ok (0x00, 0x41) →
        get_prod_nr bus a =
          (.error (.IncorrectProductNumber 0x41),
           [.writeRead a [Register.ProductNumber.toNat]])) := by
  have hok : ∀ (E : Type) (bus : SimBus E) (a e v : Nat),
      bus.writeRead a [Register.ProductNumber.toNat] = .ok (e, v) →
      v % 256 = PRODUCT_NUMBER →
      get_prod_nr bus a =
        (.ok PRODUCT_NUMBER, [.writeRead a [Register.ProductNumber.toNat]]) := by
    intro E bus a e v h hv
    rw [get_prod_nr, read_reg_eq_of_ok h]
    simp only [regValueOfBytes]
    rw [if_pos hv, hv]
  have herr : ∀ (E : Type) (bus : SimBus E) (a e v : Nat),
      bus.writeRead a [Register.ProductNumber.toNat] = .ok (e, v) →
      v % 256 ≠ PRODUCT_NUMBER →
      get_prod_nr bus a =
        (.error (.IncorrectProductNumber (v % 256)),
         [.writeRead a [Register.ProductNumber.toNat]]) := by
    intro E bus a e v h hv
    rw [get_prod_nr, read_reg_eq_of_ok h]
    simp only [regValueOfBytes]
    rw [if_neg hv]
  refine ⟨hok, herr, ?_, ?_⟩
  · intro E bus a h
    exact ⟨by rw [read_reg_eq_of_ok h]; rfl, hok E bus a 0x01 0x40 h rfl⟩
  · intro E bus a h
    exact herr E bus a 0x00 0x41 h (by decide)

/-- Witness for C7: the two simulated transactions of the claim. -/
theorem get_prod_nr_spec_witness :
    (read_reg (busConst 0x01 0x40) 0x44 .ProductNumber =
        (.ok ⟨MAIN_EVENTS_PROX, 0x40⟩,
         [.writeRead 0x44 [Register.ProductNumber.toNat]]) ∧
      get_prod_nr (busConst 0x01 0x40) 0x44 =
        (.ok 0x40, [.writeRead 0x44 [Register.ProductNumber.toNat]])) ∧
    get_prod_nr (busConst 0x00 0x41) 0x44 =
      (.error (.IncorrectProductNumber 0x41),
       [.writeRead 0x44 [Register.ProductNumber.toNat]]) :=
  ⟨get_prod_nr_spec.2.2.1 Unit (busConst 0x01 0x40) 0x44 rfl,
   get_prod_nr_spec.2.2.2 Unit (busConst 0x00 0x41) 0x44 rfl⟩

/-- C8 counterexample: at a concrete transport, `get_system_flags`
issues its single read with register byte 0x11 (the documented
System_Flags address), not 0x00 (ProductNumber), refuting the claim
that both accessors read at the ProductNumber address. -/
theorem get_system_flags_address_counterexample :
    (get_system_flags (busConst 0 0) 0x44).2 =
      [.writeRead 0x44 [Register.System_Flags.toNat]] ∧
    Register.System_Flags.toNat = 0x11 ∧
    ¬ (get_system_flags (busConst 0 0) 0x44).2 =
        [.writeRead 0x44 [Register.ProductNumber.toNat]] := by
  refine ⟨rfl, rfl, by decide⟩

/-- C8 amended: `get_debug_events` issues its register read at the
ProductNumber address (0x00) rather than the documented DebugEvents
address (0x02), while `get_system_flags` reads at the documented
System_Flags address (0x11). -/
theorem accessor_read_addresses (E : Type) (bus : SimBus E) (a : Nat) :
    (get_debug_events bus a).2 =
      [.writeRead a [Register.ProductNumber.toNat]] ∧
    (get_system_flags bus a).2 =
      [.writeRead a [Register.System_Flags.toNat]] ∧
    Register.ProductNumber.toNat = 0x00 ∧
    Register.DebugEvents.toNat = 0x02 ∧
    Register.System_Flags.toNat = 0x11 := by
  refine ⟨?_, ?_, rfl, rfl, rfl⟩
  · cases h : bus.writeRead a [Register.ProductNumber.toNat] <;>
      simp [get_debug_events, read_reg, h]
  · cases h : bus.writeRead a [Register.System_Flags.toNat] <;>
      simp [get_system_flags, read_reg, h]

/-- C9: `get_software_version` issues its single read at the
ProductNumber address (0x00), not the SoftwareVersion address (0x01);
the byte then decodes as 0x06 (IQS231A) or 0x07 (IQS231B) and any
other byte fails with `UnknownSoftwareVersion`; on a device answering
0x40 at address 0x00 it always fails with
`UnknownSoftwareVersion 0x40`. -/
theorem get_software_version_spec :
    (∀ (E : Type) (bus : SimBus E) (a : Nat),
        (get_software_version bus a).2 =
          [.writeRead a [Register.ProductNumber.toNat]]) ∧
    Register.ProductNumber.toNat = 0x00 ∧
    Register.SoftwareVersion.toNat = 0x01 ∧
    (∀ (E : Type) (bus : SimBus E) (a e v : Nat),
        bus.writeRead a [Register.ProductNumber.toNat] = .ok (e, v) →
        v % 256 = 0x06 →
        (get_software_version bus a).1 = .ok .IQS231A) ∧
    (∀ (E : Type) (bus : SimBus E) (a e v : Nat),
        bus.writeRead a [Register.ProductNumber.toNat] = .ok (e, v) →
        v % 256 = 0x07 →
        (get_software_version bus a).1 = .ok .IQS231B) ∧
    (∀ (E : Type) (bus : SimBus E) (a e v : Nat),
        bus.writeRead a [Register.ProductNumber.toNat] = .ok (e, v) →
        v % 256 ≠ 0x06 → v % 256 ≠ 0x07 →
        (get_software_version bus a).1 =
          .error (.UnknownSoftwareVersion (v % 256))) ∧
    (∀ (E : Type) (bus : SimBus E) (a e : Nat),
        bus.writeRead a [Register.ProductNumber.toNat] = .ok (e, 0x40) →
        (get_software_version bus a).1 =
          .error (.UnknownSoftwareVersion 0x40)) := by
  have hnone : ∀ n : Nat, n ≠ 0x06 → n ≠ 0x07 →
      SoftwareVersion.ofNat? n = none := by
    intro n h6 h7
    unfold SoftwareVersion.ofNat?
    split
    · simp_all
    · simp_all
    · rfl
  have hunk : ∀ (E : Type) (bus : SimBus E) (a e v : Nat),
      bus.writeRead a [Register.ProductNumber.toNat] = .ok (e, v) →
      v % 256 ≠ 0x06 → v % 256 ≠ 0x07 →
      (get_software_version bus a).1 =
        .error (.UnknownSoftwareVersion (v % 256)) := by
    intro E bus a e v h h6 h7
    simp only [get_software_version, read_reg_eq_of_ok h, regValueOfBytes,
      hnone (v % 256) h6 h7]
  refine ⟨?_, rfl, rfl, ?_, ?_, hunk, ?_⟩
  · intro E bus a
    cases h : bus.writeRead a [Register.ProductNumber.toNat] with
    | error e => simp [get_software_version, read_reg, h]
    | ok b =>
      cases hs : SoftwareVersion.ofNat? (regValueOfBytes b).value <;>
        simp [get_software_version, read_reg, h, hs]
  · intro E bus a e v h hv
    simp only [get_software_version, read_reg_eq_of_ok h, regValueOfBytes, hv]
    rfl
  · intro E bus a e v h hv
    simp only [get_software_version, read_reg_eq_of_ok h, regValueOfBytes, hv]
    rfl
  · intro E bus a e h
    exact hunk E bus a e 0x40 h (by decide) (by decide)

/-- Witness for C9: a device answering (event 0x00, byte 0x40) at
address 0x00 makes `get_software_version` fail with
`UnknownSoftwareVersion 0x40`; bytes 0x06 and 0x07 decode to the two
known revisions. -/
theorem get_software_version_spec_witness :
    (get_software_version (busConst 0 0x40) 0x44).1 =
      .error (.UnknownSoftwareVersion 0x40) ∧
    (get_software_version (busConst 0 0x06) 0x44).1 = .ok .IQS231A ∧
    (get_software_version (busConst 0 0x07) 0x44).1 = .ok .IQS231B ∧
    (get_software_version (busConst 0 0x40) 0x44).2 =
      [.writeRead 0x44 [Register.ProductNumber.toNat]] :=
  ⟨get_software_version_spec.2.2.2.2.2.2 Unit (busConst 0 0x40) 0x44 0 rfl,
   get_software_version_spec.2.2.2.1 Unit (busConst 0 0x06) 0x44 0 0x06 rfl rfl,
   get_software_version_spec.2.2.2.2.1 Unit (busConst 0 0x07) 0x44 0 0x07 rfl rfl,
   get_software_version_spec.1 Unit (busConst 0 0x40) 0x44⟩

/-- C10: `get_move_lower_reference_count` starts its 16-bit read at
CH1_LMOV_L (0x20) instead of CH1_LMOV_H (0x1F), so the returned
reading has the byte read at 0x20 as its high byte and the byte read
at 0x21 (CH1_RAW_H, the temperature channel's raw high byte) as its
low byte. -/
theorem get_move_lower_reference_count_spec :
    Register.CH1_LMOV_H.toNat = 0x1F ∧
    Register.CH1_LMOV_L.toNat = 0x20 ∧
    Register.CH1_RAW_H.toNat = 0x21 ∧
    (∀ E : Type, Register.next E .CH1_LMOV_L = .ok .CH1_RAW_H) ∧
    (∀ (E : Type) (bus : SimBus E) (a : Nat),
        get_move_lower_reference_count bus a =
          read_reg16 bus a .CH1_LMOV_L) ∧
    (∀ (E : Type) (bus : SimBus E) (a e1 hb e2 lb : Nat),
        bus.writeRead a [Register.CH1_LMOV_L.toNat] = .ok (e1, hb) →
        bus.writeRead a [Register.CH1_RAW_H.toNat] = .ok (e2, lb) →
        get_move_lower_reference_count bus a =
          (.ok ⟨(e1 % 256) ||| (e2 % 256),
                ((hb % 256) <<< 8) ||| (lb % 256)⟩,
           [.writeRead a [Register.CH1_LMOV_L.toNat],
            .writeRead a [Register.CH1_RAW_H.toNat]])) := by
  refine ⟨rfl, rfl, rfl, fun E => rfl, fun E bus a => rfl, ?_⟩
  intro E bus a e1 hb e2 lb hhi hlo
  exact read_reg16_eq_of_ok rfl hhi hlo

/-- Witness for C10: with bytes (0x0A, 0x12) at 0x20 and (0x0B, 0x34)
at 0x21 the reading's value takes 0x12 as high and 0x34 as low byte. -/
theorem get_move_lower_reference_count_spec_witness :
    get_move_lower_reference_count busPairs 0x44 =
      (.ok ⟨(0x0A % 256) ||| (0x0B % 256),
            ((0x12 % 256) <<< 8) ||| (0x34 % 256)⟩,
       [.writeRead 0x44 [Register.CH1_LMOV_L.toNat],
        .writeRead 0x44 [Register.CH1_RAW_H.toNat]]) ∧
    ((0x12 % 256) <<< 8) ||| (0x34 % 256) = 0x1234 := by
  refine ⟨get_move_lower_reference_count_spec.2.2.2.2.2 Unit busPairs 0x44
    0x0A 0x12 0x0B 0x34 rfl rfl, by decide⟩

end Iqs231
